import Mathlib

/-!
Shallow embedding of the Music Store customer-support workflow
(`src/Databases/CustomerDatabase.py`, `src/Databases/MusicDatabase.py`,
`src/Graph/CustomerVerification.py`, `src/Graph/CustomerPreferences.py`,
`src/Graph/CustomerQueryGraph.py`, `src/streamlit_app.py`).

Python `str` values become `String`; nullable fields become `Option String`;
SQL tables become lists of records queried in storage order; the LLM calls
(`ChatOpenAI`/`ChatGroq` invocations) are opaque function parameters; the
`interrupt`/`Command(resume=...)` round-trips of a verification episode are
fed in as a list of resume strings.
-/

namespace MusicStore

/-- Chat messages, as used in the graph state (`MessagesState.messages`). -/
inductive Msg
  | system (content : String)
  | human (content : String)
  | ai (content : String)
deriving DecidableEq

/-- Whitespace as stripped by Python `str.strip()` (ASCII subset). -/
def wsChar (c : Char) : Bool := c = ' ' || c = '\t' || c = '\n' || c = '\r'

/-- Python `str.strip()`. -/
def pyStrip (s : String) : String :=
  ⟨((s.data.dropWhile wsChar).reverse.dropWhile wsChar).reverse⟩

/-- Python `str.lower()` / SQLite ASCII case folding. -/
def pyLower (s : String) : String := ⟨s.data.map Char.toLower⟩

/-- A row of the `customers` table (`id TEXT PRIMARY KEY, phone_number, email`,
populated with non-null values by `populate_customers_sample_data`). -/
structure CustomerRecord where
  id : String
  phone_number : String
  email : String
deriving DecidableEq

/-- Python truthiness of an optional string argument (`if customer_id:`):
`None` and the empty string are falsy. -/
def presentField : Option String → Bool
  | none => false
  | some s => s ≠ ""

/-- One `field = ?` condition of the `WHERE ... OR ...` clause: contributes a
match only when the argument is truthy (otherwise the condition is omitted). -/
def condMatch (field : Option String) (rowVal : String) : Bool :=
  match field with
  | none => false
  | some s => s ≠ "" && rowVal == s

/-- Whether any condition was added to the query (`if not conditions: ...`). -/
def hasConditions (customer_id phone_number email : Option String) : Bool :=
  presentField customer_id || presentField phone_number || presentField email

/-- `CustomerDatabase.get_customer_details`: OR-match on whichever of
id/phone/email is truthy, `fetchone` = first matching row in storage order;
returns `{}` (here `none`) when no condition is present or nothing matches. -/
def get_customer_details (table : List CustomerRecord)
    (customer_id phone_number email : Option String) : Option CustomerRecord :=
  if hasConditions customer_id phone_number email then
    table.find? fun row =>
      condMatch customer_id row.id || condMatch phone_number row.phone_number ||
        condMatch email row.email
  else
    none

/-- `CustomerDatabase.check_customer_exists`: same OR-query, `SELECT 1`,
`False` when no condition is present. -/
def check_customer_exists (table : List CustomerRecord)
    (customer_id phone_number email : Option String) : Bool :=
  if hasConditions customer_id phone_number email then
    (table.find? fun row =>
      condMatch customer_id row.id || condMatch phone_number row.phone_number ||
        condMatch email row.email).isSome
  else
    false

/-- The sample rows inserted by `populate_customers_sample_data`. -/
def sampleCustomers : List CustomerRecord :=
  [⟨"customer_1", "+55 (12) 3923-5555", "customer1@example.com"⟩,
   ⟨"customer_2", "+55 (21) 99876-5432", "customer2@example.com"⟩,
   ⟨"customer_3", "+55 (11) 91234-5678", "customer3@example.com"⟩]

/-! ### Customer verification (`src/Graph/CustomerVerification.py`) -/

/-- The structured-output record extracted by the verification model
(pydantic `CustomerData`; each field optional). -/
structure CustomerData where
  customer_id : Option String
  customer_phone_number : Option String
  customer_email : Option String
deriving DecidableEq

/-- The fixed system instructions of `verify_customer`. -/
def verificationSystemPrompt : String :=
  "Your mission is to extract customer identification details from their input. Only respond with the structured data.\nThe customer may provide their customer ID, phone number, or email address.\nIf the input does not contain any identifiable information, respond with empty fields."

/-- Prompt of `interrupt(...)` in the `not structured_response` branch. -/
def couldNotParsePrompt : String :=
  "Could not parse the response. Please provide the information in the correct format."

/-- Prompt of `interrupt(...)` in the other unmatched branch. -/
def providePhoneEmailPrompt : String :=
  "Please provide your phone number or email for verification."

/-- Python truthiness of the structured-output result: a constructed pydantic
model instance is always truthy; the model call may instead return `None`
(no structured object), which is falsy. -/
def respTruthy : Option CustomerData → Bool
  | none => false
  | some _ => true

/-- Outcome of one verification episode: resolution with the state update
value for `customer_id`, or a pending `interrupt` prompt awaiting the user. -/
inductive VerifyOutcome
  | resolved (customer_id : Option String)
  | suspended (prompt : String)
deriving DecidableEq

/-- Field access `structured_response.customer_id` etc. followed by the
database lookup; raises `AttributeError` when the model returned `None`. -/
def lookupFromResponse (table : List CustomerRecord) :
    Option CustomerData → Except String (Option CustomerRecord)
  | none => .error "AttributeError: customer_id access on None"
  | some d =>
      .ok (get_customer_details table d.customer_id d.customer_phone_number d.customer_email)

/-- The `while not customerDetails:` retry loop of `verify_customer`.
`resp` is the current structured response, `inputs` the resume values the
user will supply to successive `interrupt`s; the second component of the
result logs the message list sent to each re-extraction call. -/
def verifyLoop (table : List CustomerRecord) (extract : List Msg → Option CustomerData) :
    Option CustomerData → List String → Except String (VerifyOutcome × List (List Msg))
  | resp, [] =>
      match lookupFromResponse table resp with
      | .error e => .error e
      | .ok (some row) => .ok (.resolved (some row.id), [])
      | .ok none =>
          .ok (.suspended
            (if respTruthy resp then providePhoneEmailPrompt else couldNotParsePrompt), [])
  | resp, inp :: rest =>
      match lookupFromResponse table resp with
      | .error e => .error e
      | .ok (some row) => .ok (.resolved (some row.id), [])
      | .ok none =>
          match verifyLoop table extract
              (extract [Msg.system verificationSystemPrompt, Msg.human inp]) rest with
          | .error e => .error e
          | .ok (out, log) =>
              .ok (out, [Msg.system verificationSystemPrompt, Msg.human inp] :: log)

/-- Session state of the graph (`GraphInnerState`): message history, the
`customer_id` key (absent / present-but-`None` / set), loaded preferences.
`customer_id = none` models the key being absent from the state dict. -/
structure SessionState where
  messages : List Msg
  customer_id : Option (Option String)
  loaded_preferences : String
deriving DecidableEq

/-- `CustomerVerification.verify_customer`: first extraction over the system
prompt plus the whole message history, then the retry loop. Also returns the
log of message lists sent to every extraction call. -/
def verify_customer (table : List CustomerRecord)
    (extract : List Msg → Option CustomerData) (st : SessionState)
    (inputs : List String) : Except String (VerifyOutcome × List (List Msg)) :=
  match verifyLoop table extract
      (extract (Msg.system verificationSystemPrompt :: st.messages)) inputs with
  | .error e => .error e
  | .ok (out, log) =>
      .ok (out, (Msg.system verificationSystemPrompt :: st.messages) :: log)

/-! ### Preferences (`src/Graph/CustomerPreferences.py`) -/

/-- A record in the langgraph store under namespace
`(customer_id, "preferences")`: its key (a uuid in the source) and the
`text` field of its value. -/
structure PrefRecord where
  key : String
  text : String
deriving DecidableEq

/-- The preference store: `(customer_id, record)` pairs in insertion order. -/
abbrev PrefStore := List (String × PrefRecord)

/-- `store.search((customer_id, "preferences"))`: all records of that
namespace, in storage order. -/
def searchPrefs (store : PrefStore) (cid : String) : List PrefRecord :=
  (store.filter fun p => p.1 == cid).map Prod.snd

/-- `store.put((customer_id, "preferences"), key, value)`: replaces the entry
with the same key in the namespace if one exists, otherwise appends. -/
def storePut (store : PrefStore) (cid : String) (key text : String) : PrefStore :=
  if store.any fun p => p.1 == cid && p.2.key == key then
    store.map fun p => if p.1 == cid && p.2.key == key then (cid, ⟨key, text⟩) else p
  else
    store ++ [(cid, ⟨key, text⟩)]

/-- Header prepended by `extract_preferences` when the digest is non-empty. -/
def prefsHeader : String := "## Preferences of user\n"

/-- The digest: texts of all records for the identity joined with newlines,
with the header prefixed only when the joined text is non-empty. -/
def prefDigest (store : PrefStore) (cid : String) : String :=
  if String.intercalate "\n" ((searchPrefs store cid).map PrefRecord.text) = "" then ""
  else prefsHeader ++ String.intercalate "\n" ((searchPrefs store cid).map PrefRecord.text)

/-- `CustomerPreferences.extract_preferences`: reads the store for
`state["customer_id"]` and returns the `loaded_preferences` update; an
absent or null `customer_id` would fail the dict/namespace access, modelled
as an error. Performs no store write. -/
def extract_preferences (store : PrefStore) (st : SessionState) :
    Except String (SessionState × PrefStore) :=
  match st.customer_id with
  | some (some cid) => .ok ({st with loaded_preferences := prefDigest store cid}, store)
  | some none => .error "TypeError: invalid store namespace None"
  | none => .error "KeyError: customer_id"

/-- The no-op sentinel compared against `response.content.strip().lower()`. -/
def noopSentinel : String := "no preferences found."

/-- `CustomerPreferences.save_preferences`: `response` is the preference
model output, `freshKey` the generated uuid; writes one record unless the
normalized response equals the sentinel, and returns the state unchanged. -/
def save_preferences (freshKey response : String) (store : PrefStore)
    (st : SessionState) : Except String (SessionState × PrefStore) :=
  if pyLower (pyStrip response) ≠ noopSentinel then
    match st.customer_id with
    | some (some cid) => .ok (st, storePut store cid freshKey (pyStrip response))
    | some none => .error "TypeError: invalid store namespace None"
    | none => .error "KeyError: customer_id"
  else
    .ok (st, store)

/-! ### Invoice queries (`src/Databases/CustomerDatabase.py`) -/

/-- A row of the `invoices` table; `amount REAL` is modelled as a rational. -/
structure Invoice where
  id : String
  customer_id : String
  amount : ℚ
  date : String
  employee_name : String
deriving DecidableEq

/-- `ORDER BY amount DESC` comparison: `a` precedes `b` when
`b.amount ≤ a.amount`. -/
def amountDescOrder (a b : Invoice) : Prop := b.amount ≤ a.amount

instance : DecidableRel amountDescOrder := fun a b =>
  inferInstanceAs (Decidable (b.amount ≤ a.amount))

instance : IsTotal Invoice amountDescOrder := ⟨fun a b => le_total b.amount a.amount⟩

instance : IsTrans Invoice amountDescOrder := ⟨fun _ _ _ h₁ h₂ => le_trans h₂ h₁⟩

/-- `ORDER BY date DESC` comparison on the `date TEXT` column. -/
def dateDescOrder (a b : Invoice) : Prop := b.date ≤ a.date

instance : DecidableRel dateDescOrder := fun a b =>
  inferInstanceAs (Decidable (b.date ≤ a.date))

instance : IsTotal Invoice dateDescOrder := ⟨fun a b => le_total b.date a.date⟩

instance : IsTrans Invoice dateDescOrder := ⟨fun _ _ _ h₁ h₂ => le_trans h₂ h₁⟩

/-- `CustomerDatabase.get_invoices_sorted_by_unit_price`:
`SELECT * FROM invoices WHERE customer_id = ? ORDER BY amount DESC`
(no LIMIT clause). Despite the name it orders by the `amount` column. -/
def get_invoices_sorted_by_unit_price (invoices : List Invoice) (cid : String) :
    List Invoice :=
  List.insertionSort amountDescOrder (invoices.filter fun inv => inv.customer_id == cid)

/-- `CustomerDatabase.get_invoices_by_customer_sorted_by_date`:
`SELECT * FROM invoices WHERE customer_id = ? ORDER BY date DESC`
(no LIMIT clause). -/
def get_invoices_by_customer_sorted_by_date (invoices : List Invoice) (cid : String) :
    List Invoice :=
  List.insertionSort dateDescOrder (invoices.filter fun inv => inv.customer_id == cid)

/-! ### Music catalog queries (`src/Databases/MusicDatabase.py`) -/

/-- A joined Album/Artist row as selected by the album queries. -/
structure AlbumRow where
  album_title : String
  artist_name : String
deriving DecidableEq

/-- A joined Track/Album/Genre/Artist row as selected by the track queries. -/
structure TrackRow where
  track_name : String
  album_title : String
  artist_name : String
  genre_name : String
deriving DecidableEq

/-- SQLite `LIKE` with a wildcard-wrapped term on ASCII text: case-insensitive substring test. -/
def likeContains (hay needle : String) : Bool :=
  let h := (pyLower hay).data
  let n := (pyLower needle).data
  (List.range (h.length + 1)).any fun i => (h.drop i).take n.length == n

/-- `MusicDatabase.get_albums_by_artist`: equality filter on the artist name,
`LIMIT 5`. -/
def get_albums_by_artist (albums : List AlbumRow) (artist_name : String) :
    List AlbumRow :=
  (albums.filter fun a => a.artist_name == artist_name).take 5

/-- `MusicDatabase.get_songs_by_genre`: equality filter on the genre name,
`LIMIT 5`. -/
def get_songs_by_genre (tracks : List TrackRow) (genre_name : String) :
    List TrackRow :=
  (tracks.filter fun t => t.genre_name == genre_name).take 5

/-- `MusicDatabase.search_tracks`: `LIKE` with a wildcard-wrapped term on track name, album title
or artist name, `LIMIT 5`. -/
def search_tracks (tracks : List TrackRow) (term : String) : List TrackRow :=
  (tracks.filter fun t =>
      likeContains t.track_name term || likeContains t.album_title term ||
        likeContains t.artist_name term).take 5

/-! ### The workflow graph (`src/Graph/CustomerQueryGraph.py`) -/

/-- The graph nodes added by `build_graph`. -/
inductive Stage
  | summarize
  | verify
  | extractPrefs
  | supervisor
  | savePrefs
deriving DecidableEq

/-- `CustomerQueryGraph.should_verify_customer`:
`"customer_id" not in state or state["customer_id"] is None`. -/
def should_verify_customer (st : SessionState) : Bool :=
  match st.customer_id with
  | none => true
  | some none => true
  | some (some _) => false

/-- The conditional edge out of `summarize_conversation`
(`add_conditional_edges(..., {True: "verify_customer", False: "extract_preferences"})`). -/
def conditionalEdgeTarget (st : SessionState) : Stage :=
  if should_verify_customer st then .verify else .extractPrefs

/-- External collaborators of one turn, opaque to the orchestration core:
the structured extractor and the three chat-model calls, plus the resume
inputs the user supplies to verification interrupts and the uuid generated
by `save_preferences`. -/
structure TurnParams where
  table : List CustomerRecord
  extract : List Msg → Option CustomerData
  summarizeMessages : List Msg → List Msg
  superviseMessages : SessionState → List Msg
  prefResponse : String
  freshKey : String
  resumeInputs : List String

/-- Result of one turn of the graph. -/
inductive TurnResult
  | reply (st : SessionState) (store : PrefStore)
  | suspended (prompt : String)
  | failed (err : String)
deriving DecidableEq

/-- The tail of the pipeline from `extract_preferences` through
`supervisor_agent` (which only appends messages) to `save_preferences`,
returning the list of `(stage, state at entry)` visits and the result. -/
def continueFromExtract (p : TurnParams) (store : PrefStore) (st : SessionState) :
    List (Stage × SessionState) × TurnResult :=
  match extract_preferences store st with
  | .error e => ([(.extractPrefs, st)], .failed e)
  | .ok (st₂, store₂) =>
      match save_preferences p.freshKey p.prefResponse store₂
          {st₂ with messages := st₂.messages ++ p.superviseMessages st₂} with
      | .error e =>
          ([(.extractPrefs, st), (.supervisor, st₂),
            (.savePrefs, {st₂ with messages := st₂.messages ++ p.superviseMessages st₂})],
           .failed e)
      | .ok (st₄, store₄) =>
          ([(.extractPrefs, st), (.supervisor, st₂),
            (.savePrefs, {st₂ with messages := st₂.messages ++ p.superviseMessages st₂})],
           .reply st₄ store₄)

/-- State after the `summarize_conversation` node: a side-effecting
pass-through over the message history (`SummarizationNode`). -/
def summarizedState (p : TurnParams) (st₀ : SessionState) : SessionState :=
  {st₀ with messages := p.summarizeMessages st₀.messages}

/-- One turn of the compiled graph: `START -> summarize_conversation`, the
conditional edge, then (possibly) verification and the fixed edges
`verify_customer -> extract_preferences -> supervisor_agent -> save_preferences`.
Returns each stage visited with the state at its entry. -/
def runTurn (p : TurnParams) (store : PrefStore) (st₀ : SessionState) :
    List (Stage × SessionState) × TurnResult :=
  if should_verify_customer (summarizedState p st₀) then
    match verify_customer p.table p.extract (summarizedState p st₀) p.resumeInputs with
    | .error e => ([(.summarize, st₀), (.verify, summarizedState p st₀)], .failed e)
    | .ok (.suspended prompt, _) =>
        ([(.summarize, st₀), (.verify, summarizedState p st₀)], .suspended prompt)
    | .ok (.resolved cid, _) =>
        ((.summarize, st₀) :: (.verify, summarizedState p st₀) ::
            (continueFromExtract p store
              {summarizedState p st₀ with customer_id := some cid}).1,
         (continueFromExtract p store
           {summarizedState p st₀ with customer_id := some cid}).2)
  else
    ((.summarize, st₀) :: (continueFromExtract p store (summarizedState p st₀)).1,
     (continueFromExtract p store (summarizedState p st₀)).2)

/-! ### Engine failure policy (`src/streamlit_app.py` and the checkpointing
runtime) -/

/-- Modelled from the spec: the workflow engine executes the stages of a turn
sequentially and persists a checkpoint after each non-suspending stage; the
checkpoint loop itself (the langgraph runtime behind
`graphBuilder.compile(checkpointer=...)`) is not part of `src/`. Returns the
turn outcome together with the last-good checkpoint: on a stage failure the
checkpoint written by the preceding successful stages is left intact. -/
def runStages (ckpt : SessionState) :
    List (SessionState → Except String SessionState) →
      Except String SessionState × SessionState
  | [] => (.ok ckpt, ckpt)
  | stage :: rest =>
      match stage ckpt with
      | .error e => (.error e, ckpt)
      | .ok st' => runStages st' rest

/-- Sequential application of a stage list when every stage succeeds
(`none` as soon as one fails). -/
def applyStagesOk (ckpt : SessionState) :
    List (SessionState → Except String SessionState) → Option SessionState
  | [] => some ckpt
  | stage :: rest =>
      match stage ckpt with
      | .error _ => none
      | .ok st' => applyStagesOk st' rest

/-- The apology shown by `StreamlitCustomerSupportApp.handle_user_input`
when the graph invocation raises. -/
def apologyMsg : String :=
  "I apologize, but I encountered an error processing your request. Please try again."

/-- Content of a message. -/
def msgText : Msg → String
  | .system c => c
  | .human c => c
  | .ai c => c

/-- `StreamlitCustomerSupportApp.handle_user_input`: display the last
message of a successful invocation, and convert any raised error into the
apology reply (the `except Exception` block). -/
def handle_user_input (r : Except String SessionState) : String :=
  match r with
  | .error _ => apologyMsg
  | .ok st => ((st.messages.getLast?).map msgText).getD ""

/-! ## Helper lemmas -/

theorem get_customer_details_mem {table : List CustomerRecord} {a b c : Option String}
    {row : CustomerRecord} (h : get_customer_details table a b c = some row) :
    row ∈ table := by
  unfold get_customer_details at h
  split at h
  · exact List.mem_of_find?_eq_some h
  · exact absurd h (by simp)

theorem lookupFromResponse_some_mem {table : List CustomerRecord}
    {resp : Option CustomerData} {row : CustomerRecord}
    (h : lookupFromResponse table resp = .ok (some row)) : row ∈ table := by
  cases resp with
  | none => exact absurd h (by simp [lookupFromResponse])
  | some d =>
      simp only [lookupFromResponse, Except.ok.injEq] at h
      exact get_customer_details_mem h

theorem verifyLoop_resolved_mem {table : List CustomerRecord}
    {extract : List Msg → Option CustomerData} :
    ∀ {inputs : List String} {resp : Option CustomerData} {cid : Option String}
      {log : List (List Msg)},
      verifyLoop table extract resp inputs = .ok (.resolved cid, log) →
      ∃ row, row ∈ table ∧ cid = some row.id := by
  intro inputs
  induction inputs with
  | nil =>
      intro resp cid log h
      unfold verifyLoop at h
      split at h
      · exact absurd h (by simp)
      · rename_i row heq
        simp only [Except.ok.injEq, Prod.mk.injEq, VerifyOutcome.resolved.injEq] at h
        exact ⟨row, lookupFromResponse_some_mem heq, h.1.symm⟩
      · exact absurd h (by simp)
  | cons inp rest ih =>
      intro resp cid log h
      unfold verifyLoop at h
      split at h
      · exact absurd h (by simp)
      · rename_i row heq
        simp only [Except.ok.injEq, Prod.mk.injEq, VerifyOutcome.resolved.injEq] at h
        exact ⟨row, lookupFromResponse_some_mem heq, h.1.symm⟩
      · split at h
        · exact absurd h (by simp)
        · rename_i out log' heq
          simp only [Except.ok.injEq, Prod.mk.injEq] at h
          exact ih (h.1 ▸ heq)

theorem verify_customer_resolved_mem {table : List CustomerRecord}
    {extract : List Msg → Option CustomerData} {st : SessionState}
    {inputs : List String} {cid : Option String} {log : List (List Msg)}
    (h : verify_customer table extract st inputs = .ok (.resolved cid, log)) :
    ∃ row, row ∈ table ∧ cid = some row.id := by
  unfold verify_customer at h
  split at h
  · exact absurd h (by simp)
  · rename_i out log' heq
    simp only [Except.ok.injEq, Prod.mk.injEq] at h
    obtain ⟨h1, _⟩ := h
    subst h1
    exact verifyLoop_resolved_mem heq

theorem verifyLoop_log_shape {table : List CustomerRecord}
    {extract : List Msg → Option CustomerData} :
    ∀ {inputs : List String} {resp : Option CustomerData}
      {out : VerifyOutcome} {log : List (List Msg)},
      verifyLoop table extract resp inputs = .ok (out, log) →
      ∃ n, log = (inputs.take n).map
        (fun inp => [Msg.system verificationSystemPrompt, Msg.human inp]) := by
  intro inputs
  induction inputs with
  | nil =>
      intro resp out log h
      unfold verifyLoop at h
      split at h
      · exact absurd h (by simp)
      · simp only [Except.ok.injEq, Prod.mk.injEq] at h
        exact ⟨0, by simp [h.2.symm]⟩
      · simp only [Except.ok.injEq, Prod.mk.injEq] at h
        exact ⟨0, by simp [h.2.symm]⟩
  | cons inp rest ih =>
      intro resp out log h
      unfold verifyLoop at h
      split at h
      · exact absurd h (by simp)
      · simp only [Except.ok.injEq, Prod.mk.injEq] at h
        exact ⟨0, by simp [h.2.symm]⟩
      · split at h
        · exact absurd h (by simp)
        · rename_i out' log' heq
          simp only [Except.ok.injEq, Prod.mk.injEq] at h
          obtain ⟨n, hn⟩ := ih heq
          refine ⟨n + 1, ?_⟩
          rw [← h.2, hn]
          simp

theorem extract_preferences_ok {store : PrefStore} {st st' : SessionState}
    {store' : PrefStore} (h : extract_preferences store st = .ok (st', store')) :
    st'.customer_id = st.customer_id ∧ st'.messages = st.messages ∧ store' = store := by
  unfold extract_preferences at h
  split at h
  · simp only [Except.ok.injEq, Prod.mk.injEq] at h
    obtain ⟨h1, h2⟩ := h
    subst h1 h2
    exact ⟨rfl, rfl, rfl⟩
  · exact absurd h (by simp)
  · exact absurd h (by simp)

theorem save_preferences_ok_state {k r : String} {store : PrefStore}
    {st st' : SessionState} {store' : PrefStore}
    (h : save_preferences k r store st = .ok (st', store')) : st' = st := by
  unfold save_preferences at h
  split at h
  · split at h
    · simp only [Except.ok.injEq, Prod.mk.injEq] at h
      exact h.1.symm
    · exact absurd h (by simp)
    · exact absurd h (by simp)
  · simp only [Except.ok.injEq, Prod.mk.injEq] at h
    exact h.1.symm

theorem continueFromExtract_customer_id {p : TurnParams} {store : PrefStore}
    {st : SessionState} {s : Stage} {stv : SessionState}
    (h : (s, stv) ∈ (continueFromExtract p store st).1) :
    stv.customer_id = st.customer_id := by
  unfold continueFromExtract at h
  split at h
  · simp only [List.mem_singleton, Prod.mk.injEq] at h
    rw [h.2]
  · rename_i st₂ store₂ heq
    obtain ⟨hcid, _, _⟩ := extract_preferences_ok heq
    split at h <;>
      · simp only [List.mem_cons, List.mem_singleton, Prod.mk.injEq,
          List.not_mem_nil, or_false] at h
        rcases h with ⟨_, h2⟩ | ⟨_, h2⟩ | ⟨_, h2⟩ <;> subst h2 <;> simp [hcid]

theorem should_verify_eq_false {st : SessionState}
    (h : should_verify_customer st = false) : ∃ c, st.customer_id = some (some c) := by
  unfold should_verify_customer at h
  split at h
  · exact absurd h (by simp)
  · exact absurd h (by simp)
  · rename_i c heq
    exact ⟨c, heq⟩

/-! ## Claims -/

/-- C1: in every execution of the workflow graph, no stage after
Verification (preference extraction, supervisor dispatch, preference
saving) is entered while the `customer_id` of the session is unset: every state
at the entry of `extract_preferences`, `supervisor_agent` or
`save_preferences` carries a resolved (non-`None`) identity, because the
conditional edge either routes through `verify_customer`, which returns
only after a non-empty customer lookup, or skips it exactly when
`customer_id` is already set. -/
theorem post_verification_identity_resolved (p : TurnParams) (store : PrefStore)
    (st₀ : SessionState) (s : Stage) (stv : SessionState)
    (hmem : (s, stv) ∈ (runTurn p store st₀).1)
    (hpost : s = .extractPrefs ∨ s = .supervisor ∨ s = .savePrefs) :
    ∃ c, stv.customer_id = some (some c) := by
  have hnsum : s ≠ .summarize := by rcases hpost with h | h | h <;> subst h <;> decide
  have hnver : s ≠ .verify := by rcases hpost with h | h | h <;> subst h <;> decide
  unfold runTurn at hmem
  split at hmem
  · rename_i hver
    split at hmem
    · simp only [List.mem_cons, List.mem_singleton, Prod.mk.injEq,
        List.not_mem_nil, or_false] at hmem
      rcases hmem with ⟨h1, _⟩ | ⟨h1, _⟩ <;> [exact absurd h1 hnsum; exact absurd h1 hnver]
    · simp only [List.mem_cons, List.mem_singleton, Prod.mk.injEq,
        List.not_mem_nil, or_false] at hmem
      rcases hmem with ⟨h1, _⟩ | ⟨h1, _⟩ <;> [exact absurd h1 hnsum; exact absurd h1 hnver]
    · rename_i cid log heq
      simp only [List.mem_cons, Prod.mk.injEq] at hmem
      rcases hmem with ⟨h1, _⟩ | ⟨h1, _⟩ | hmem
      · exact absurd h1 hnsum
      · exact absurd h1 hnver
      · obtain ⟨row, _, hcid⟩ := verify_customer_resolved_mem heq
        have hpres := continueFromExtract_customer_id hmem
        exact ⟨row.id, by rw [hpres]; simp [hcid]⟩
  · rename_i hver
    simp only [List.mem_cons, Prod.mk.injEq] at hmem
    rcases hmem with ⟨h1, _⟩ | hmem
    · exact absurd h1 hnsum
    · obtain ⟨c, hc⟩ := should_verify_eq_false (Bool.of_not_eq_true hver)
      have hpres := continueFromExtract_customer_id hmem
      exact ⟨c, by rw [hpres]; exact hc⟩

/-- C2: after the `summarize_conversation` node, the conditional edge
targets `verify_customer` if and only if the state has no `customer_id`
key or its value is `None`, and targets `extract_preferences` if and only
if `customer_id` is set to a non-`None` value. -/
theorem summarize_conditional_routing (st : SessionState) :
    (conditionalEdgeTarget st = .verify ↔
      (st.customer_id = none ∨ st.customer_id = some none)) ∧
    (conditionalEdgeTarget st = .extractPrefs ↔
      ∃ c, st.customer_id = some (some c)) := by
  unfold conditionalEdgeTarget should_verify_customer
  rcases hc : st.customer_id with _ | _ | c <;> simp [hc]

/-- Concrete collaborators for exercising a turn: the extractor never
returns a structured object, summarization and supervision are inert. -/
def pW : TurnParams :=
  { table := sampleCustomers
    extract := fun _ => none
    summarizeMessages := fun ms => ms
    superviseMessages := fun _ => []
    prefResponse := "Customer likes Jazz."
    freshKey := "pref-key-1"
    resumeInputs := [] }

/-- A session state already carrying a resolved identity. -/
def stW : SessionState := ⟨[], some (some "customer_1"), ""⟩

/-- Witness for C1: a concrete turn whose trace enters `extract_preferences`
with a resolved identity. -/
theorem post_verification_identity_resolved_witness :
    ∃ c, stW.customer_id = some (some c) :=
  post_verification_identity_resolved pW [] stW .extractPrefs stW (by decide)
    (Or.inl rfl)

/-- C3, evaluated at the failing input: an extraction returning a well-formed
record with id, phone and email all absent drives the
`Please provide your phone number or email` prompt, not the
`Could not parse` prompt — the `not structured_response` test checks the
truthiness of the response object, which a constructed record never fails. -/
theorem empty_fields_prompt_is_provide :
    verifyLoop sampleCustomers (fun _ => none) (some ⟨none, none, none⟩) [] =
      .ok (.suspended providePhoneEmailPrompt, []) ∧
    providePhoneEmailPrompt ≠ couldNotParsePrompt :=
  ⟨rfl, by decide⟩

/-- C4: whenever `verify_customer` returns, every re-extraction request it
issued on a resume consisted of exactly the fixed system instructions plus
one human message holding that resume input; only the initial extraction
request contains the conversation history. -/
theorem resume_extraction_request_shape (table : List CustomerRecord)
    (extract : List Msg → Option CustomerData) (st : SessionState)
    (inputs : List String) (out : VerifyOutcome) (log : List (List Msg))
    (h : verify_customer table extract st inputs = .ok (out, log)) :
    ∃ n, log = (Msg.system verificationSystemPrompt :: st.messages) ::
      (inputs.take n).map
        (fun inp => [Msg.system verificationSystemPrompt, Msg.human inp]) := by
  unfold verify_customer at h
  split at h
  · exact absurd h (by simp)
  · rename_i out' log' heq
    simp only [Except.ok.injEq, Prod.mk.injEq] at h
    obtain ⟨n, hn⟩ := verifyLoop_log_shape heq
    exact ⟨n, by rw [← h.2, hn]⟩

/-- Extractor used by the C4 witness: parses the resume message as an email
claim, and yields an empty claim on the initial history-based request. -/
def extractW : List Msg → Option CustomerData
  | [Msg.system _, Msg.human inp] => some ⟨none, none, some inp⟩
  | _ => some ⟨none, none, none⟩

/-- Witness for C4: a run that suspends once and resolves on the resumed
email; its log is the initial request plus one two-message resume request. -/
theorem resume_extraction_request_shape_witness :
    ∃ n, [[Msg.system verificationSystemPrompt],
          [Msg.system verificationSystemPrompt, Msg.human "customer1@example.com"]] =
      (Msg.system verificationSystemPrompt ::
          (⟨[], none, ""⟩ : SessionState).messages) ::
        ((["customer1@example.com"].take n).map
          (fun inp => [Msg.system verificationSystemPrompt, Msg.human inp])) :=
  resume_extraction_request_shape sampleCustomers extractW ⟨[], none, ""⟩
    ["customer1@example.com"] (.resolved (some "customer_1"))
    [[Msg.system verificationSystemPrompt],
     [Msg.system verificationSystemPrompt, Msg.human "customer1@example.com"]]
    rfl

/-- C5: any stage failure is caught and converted into the user-visible
apology reply, and the last-good checkpoint equals the state produced by
the longest successful stage prefix — the failing stage writes no
checkpoint, so the thread remains resumable from that state. -/
theorem stage_failure_apology_checkpoint (ckpt : SessionState)
    (stages : List (SessionState → Except String SessionState)) (e : String)
    (h : (runStages ckpt stages).1 = .error e) :
    handle_user_input (runStages ckpt stages).1 = apologyMsg ∧
    ∃ n, n ≤ stages.length ∧
      applyStagesOk ckpt (stages.take n) = some (runStages ckpt stages).2 := by
  refine ⟨by rw [h]; rfl, ?_⟩
  induction stages generalizing ckpt with
  | nil => simp [runStages] at h
  | cons stage rest ih =>
      simp only [runStages] at h ⊢
      cases hs : stage ckpt with
      | error e' =>
          exact ⟨0, Nat.zero_le _, rfl⟩
      | ok st' =>
          rw [hs] at h
          obtain ⟨n, hn, happ⟩ := ih st' h
          refine ⟨n + 1, Nat.succ_le_succ hn, ?_⟩
          simp only [List.take_succ_cons, applyStagesOk, hs]
          exact happ

/-- A stage that always raises, for exercising the failure policy. -/
def failStage : SessionState → Except String SessionState := fun _ => .error "boom"

/-- Witness for C5: a turn whose single stage raises produces the apology
and leaves the initial checkpoint as the resumable state. -/
theorem stage_failure_apology_checkpoint_witness :
    handle_user_input (runStages stW [failStage]).1 = apologyMsg ∧
    ∃ n, n ≤ [failStage].length ∧
      applyStagesOk stW ([failStage].take n) = some (runStages stW [failStage]).2 :=
  stage_failure_apology_checkpoint stW [failStage] "boom" rfl

/-- C6: for an identity, preference-digest extraction reads all stored
records for it in storage order, joins their texts with newlines, prefixes
the header exactly when the joined text is non-empty, returns the empty
string when no records exist, and changes neither the store nor any state
field other than `loaded_preferences`. -/
theorem preference_digest_extraction (store : PrefStore) (st : SessionState)
    (cid : String) (h : st.customer_id = some (some cid)) :
    extract_preferences store st =
      .ok ({st with loaded_preferences := prefDigest store cid}, store) ∧
    (searchPrefs store cid = [] → prefDigest store cid = "") ∧
    (String.intercalate "\n" ((searchPrefs store cid).map PrefRecord.text) = "" →
      prefDigest store cid = "") ∧
    (String.intercalate "\n" ((searchPrefs store cid).map PrefRecord.text) ≠ "" →
      prefDigest store cid = prefsHeader ++
        String.intercalate "\n" ((searchPrefs store cid).map PrefRecord.text)) := by
  refine ⟨?_, ?_, ?_, ?_⟩
  · unfold extract_preferences
    rw [h]
  · intro h0
    unfold prefDigest
    rw [h0]
    rfl
  · intro h0
    unfold prefDigest
    rw [if_pos h0]
  · intro h0
    unfold prefDigest
    rw [if_neg h0]

/-- A store holding one preference record for `customer_1`. -/
def storeW : PrefStore := [("customer_1", ⟨"pref-key-0", "Customer likes Jazz."⟩)]

/-- Witness for C6: the digest extraction at a concrete store and session. -/
theorem preference_digest_extraction_witness :
    extract_preferences storeW stW =
      .ok ({stW with loaded_preferences := prefDigest storeW "customer_1"}, storeW) :=
  (preference_digest_extraction storeW stW "customer_1" rfl).1

theorem storePut_of_fresh {store : PrefStore} {cid key text : String}
    (hfresh : ∀ q ∈ store, q.2.key ≠ key) :
    storePut store cid key text = store ++ [(cid, ⟨key, text⟩)] := by
  have hany : (store.any fun p => p.1 == cid && p.2.key == key) = false := by
    rw [List.any_eq_false]
    intro q hq
    simp only [Bool.and_eq_true, beq_iff_eq, not_and]
    exact fun _ => hfresh q hq
  simp [storePut, hany]

theorem searchPrefs_append (s t : PrefStore) (cid : String) :
    searchPrefs (s ++ t) cid = searchPrefs s cid ++ searchPrefs t cid := by
  unfold searchPrefs
  rw [List.filter_append, List.map_append]

/-- C7: one invocation of the preference-saving stage writes nothing when
the model output normalizes to the `no preferences found.` sentinel, and
otherwise appends exactly one new record keyed by the fresh uuid; existing
records are never rewritten or removed, so the per-identity record count is
monotonically non-decreasing. -/
theorem save_preferences_append_only (store : PrefStore) (st : SessionState)
    (resp key cid : String) (hcid : st.customer_id = some (some cid))
    (hfresh : ∀ q ∈ store, q.2.key ≠ key) :
    (pyLower (pyStrip resp) = noopSentinel →
      save_preferences key resp store st = .ok (st, store)) ∧
    (pyLower (pyStrip resp) ≠ noopSentinel →
      save_preferences key resp store st =
        .ok (st, store ++ [(cid, ⟨key, pyStrip resp⟩)])) ∧
    (∀ st' store', save_preferences key resp store st = .ok (st', store') →
      (∃ added, store' = store ++ added) ∧
      ∀ cid', (searchPrefs store cid').length ≤ (searchPrefs store' cid').length) := by
  refine ⟨?_, ?_, ?_⟩
  · intro h0
    unfold save_preferences
    rw [if_neg (by simp [h0])]
  · intro h0
    unfold save_preferences
    rw [if_pos h0, hcid]
    exact congrArg (fun s => Except.ok (st, s)) (storePut_of_fresh hfresh)
  · intro st' store' h
    by_cases h0 : pyLower (pyStrip resp) = noopSentinel
    · have heq : save_preferences key resp store st = .ok (st, store) := by
        unfold save_preferences
        rw [if_neg (by simp [h0])]
      rw [heq] at h
      simp only [Except.ok.injEq, Prod.mk.injEq] at h
      rw [← h.2]
      exact ⟨⟨[], by simp⟩, fun _ => le_refl _⟩
    · have heq : save_preferences key resp store st =
          .ok (st, store ++ [(cid, ⟨key, pyStrip resp⟩)]) := by
        unfold save_preferences
        rw [if_pos h0, hcid]
        exact congrArg (fun s => Except.ok (st, s)) (storePut_of_fresh hfresh)
      rw [heq] at h
      simp only [Except.ok.injEq, Prod.mk.injEq] at h
      rw [← h.2]
      refine ⟨⟨[(cid, ⟨key, pyStrip resp⟩)], rfl⟩, fun cid' => ?_⟩
      rw [searchPrefs_append]
      simp

/-- Witness for C7: saving a non-sentinel summary appends one fresh record. -/
theorem save_preferences_append_only_witness :
    save_preferences "pref-key-1" "Customer likes Jazz." storeW stW =
      .ok (stW, storeW ++
        [("customer_1", ⟨"pref-key-1", pyStrip "Customer likes Jazz."⟩)]) :=
  (save_preferences_append_only storeW stW "Customer likes Jazz." "pref-key-1"
      "customer_1" rfl (by decide)).2.1 (by decide)

/-- C8: `get_invoices_sorted_by_unit_price` returns exactly the given
invoices of the given customer, ordered by the total `amount` field in descending
order — the literal amount-descending behavior, not any unit price (the
invoice schema has no unit-price column). -/
theorem invoices_sorted_by_amount_descending (invoices : List Invoice) (cid : String) :
    (get_invoices_sorted_by_unit_price invoices cid).Perm
      (invoices.filter fun inv => inv.customer_id == cid) ∧
    List.Pairwise (fun a b => b.amount ≤ a.amount)
      (get_invoices_sorted_by_unit_price invoices cid) :=
  ⟨List.perm_insertionSort _ _, List.sorted_insertionSort amountDescOrder _⟩

/-- Six invoices of one customer, for probing the row cap. -/
def manyInvoices : List Invoice :=
  [⟨"i1", "c1", 10, "2023-10-01", "Alice"⟩,
   ⟨"i2", "c1", 20, "2023-10-02", "Alice"⟩,
   ⟨"i3", "c1", 30, "2023-10-03", "Bob"⟩,
   ⟨"i4", "c1", 40, "2023-10-04", "Bob"⟩,
   ⟨"i5", "c1", 50, "2023-10-05", "Carol"⟩,
   ⟨"i6", "c1", 60, "2023-10-06", "Carol"⟩]

/-- Counterexample to C9: the invoice lookups carry no `LIMIT` clause — with
six invoices on file for one customer, `get_invoices_by_customer_sorted_by_date`
returns six rows, more than the claimed five-row cap. -/
theorem invoice_lookup_exceeds_row_cap :
    (get_invoices_by_customer_sorted_by_date manyInvoices "c1").length = 6 ∧
    ¬((get_invoices_by_customer_sorted_by_date manyInvoices "c1").length ≤ 5) := by
  have h : (get_invoices_by_customer_sorted_by_date manyInvoices "c1").length = 6 := by
    unfold get_invoices_by_customer_sorted_by_date
    rw [List.length_insertionSort]
    rfl
  exact ⟨h, by rw [h]; decide⟩

/-- C9 (amended): the catalog queries are capped at five rows by their
`LIMIT 5` clauses, while the billing invoice lookups return all of the
invoices of the customer — exactly one row per matching invoice, with no cap. -/
theorem query_result_caps :
    (∀ (albums : List AlbumRow) (a : String),
      (get_albums_by_artist albums a).length ≤ 5) ∧
    (∀ (tracks : List TrackRow) (g : String),
      (get_songs_by_genre tracks g).length ≤ 5) ∧
    (∀ (tracks : List TrackRow) (t : String),
      (search_tracks tracks t).length ≤ 5) ∧
    (∀ (invoices : List Invoice) (cid : String),
      (get_invoices_by_customer_sorted_by_date invoices cid).length =
        (invoices.filter fun inv => inv.customer_id == cid).length) ∧
    (∀ (invoices : List Invoice) (cid : String),
      (get_invoices_sorted_by_unit_price invoices cid).length =
        (invoices.filter fun inv => inv.customer_id == cid).length) := by
  refine ⟨?_, ?_, ?_, ?_, ?_⟩
  · intro albums a
    exact List.length_take_le _ _
  · intro tracks g
    exact List.length_take_le _ _
  · intro tracks t
    exact List.length_take_le _ _
  · intro invoices cid
    unfold get_invoices_by_customer_sorted_by_date
    exact List.length_insertionSort _ _
  · intro invoices cid
    unfold get_invoices_sorted_by_unit_price
    exact List.length_insertionSort _ _

/-- C10: a customer lookup whose three identifying fields are all absent or
empty adds no query condition, so it matches no row of any table:
`get_customer_details` returns the empty record, `check_customer_exists`
returns `False`, and a verification attempt with such an empty claim never
resolves and suspends with the clarification prompt. -/
theorem empty_claim_never_matches (table : List CustomerRecord)
    (extract : List Msg → Option CustomerData) (d : CustomerData)
    (h : hasConditions d.customer_id d.customer_phone_number d.customer_email = false) :
    get_customer_details table d.customer_id d.customer_phone_number d.customer_email
        = none ∧
    check_customer_exists table d.customer_id d.customer_phone_number d.customer_email
        = false ∧
    verifyLoop table extract (some d) [] =
      .ok (.suspended providePhoneEmailPrompt, []) := by
  have hd : get_customer_details table d.customer_id d.customer_phone_number
      d.customer_email = none := by
    simp [get_customer_details, h]
  refine ⟨hd, by simp [check_customer_exists, h], ?_⟩
  simp [verifyLoop, lookupFromResponse, hd, respTruthy]

/-- Witness for C10: an extraction carrying only an empty phone string can
never match, even against the populated sample table. -/
theorem empty_claim_never_matches_witness :
    get_customer_details sampleCustomers none (some "") none = none ∧
    check_customer_exists sampleCustomers none (some "") none = false ∧
    verifyLoop sampleCustomers (fun _ => none) (some ⟨none, some "", none⟩) [] =
      .ok (.suspended providePhoneEmailPrompt, []) :=
  empty_claim_never_matches sampleCustomers (fun _ => none) ⟨none, some "", none⟩
    (by decide)

end MusicStore
